import Mathlib

/-
Shallow embedding of the Advisor_Connect booking code.

Times are modelled as minutes: a day runs from a midnight instant
(dayStart, a multiple of 1440) and a time of day is a minute count
below 1440. The HH:mm rendering of an instant is its value mod 1440.

The embedded functions mirror, statement by statement:
  - the slot enumeration loops of the two BookingModal variants
    (while current < endTime, stepping by the package duration);
  - the booked check (HH:mm string equality against fetched bookings);
  - handleBooking (session guard, then a single unconditional insert);
  - GoogleCalendarService.getAvailableSlots / calculateAvailableSlots
    (hourly slots, overlap test against busy intervals, catch -> []);
  - the confirm onClick of the calendar-backed BookingModal
    (calendar event insert as the only external write).
-/

namespace AdvisorConnect

/-- A row of the advisor_availability table, as selected by the slot
fetchers: advisor, day of week, start and end time of day (minutes),
active flag. -/
structure AvailabilityRule where
  advisorId : String
  dayOfWeek : String
  startTime : Nat
  endTime : Nat
  isActive : Bool
deriving DecidableEq

/-- A row of the bookings table as inserted by handleBooking:
customer_id, advisor_id, package_id, scheduled_at (an instant, in
minutes), status. -/
structure Booking where
  customerId : String
  advisorId : String
  packageId : String
  scheduledAt : Nat
  status : String
deriving DecidableEq

/-- A generated TimeSlot as pushed by the slot loops: id is the slot
start instant (the ISO string in the source), time its HH:mm rendering,
available the negated isBooked flag. -/
structure TimeSlot where
  id : Nat
  time : Nat
  available : Bool
deriving DecidableEq

/-- A busy interval returned by the free/busy query of
GoogleCalendarService (start and end instants, in minutes). -/
structure BusyInterval where
  bstart : Nat
  bend : Nat
deriving DecidableEq

/-- The authenticated session consulted by handleBooking. -/
structure Session where
  userId : String
deriving DecidableEq

/-- HH:mm rendering of an instant: its minute of day. -/
def hhmm (t : Nat) : Nat := t % 1440

/-- Two half-open intervals [s1, s1+d1) and [s2, s2+d2) intersect. -/
def overlaps (s1 d1 s2 d2 : Nat) : Bool :=
  decide (s1 < s2 + d2) && decide (s2 < s1 + d1)

/-- Fuelled form of the slot loops of both BookingModal variants:
while current < endTime push current and advance by duration.  The
source loop terminates exactly when duration is positive; the fuel
supplied by enumerateSlotStarts suffices for every positive duration. -/
def slotLoop : Nat → Nat → Nat → Nat → List Nat
  | 0, _, _, _ => []
  | fuel + 1, current, endTime, duration =>
    if current < endTime then
      current :: slotLoop fuel (current + duration) endTime duration
    else []

/-- Slot starts generated for one availability window: the loop
`while (currentTime < endTime) { push; currentTime += duration }` of
fetchAvailableSlots / fetchAvailability. -/
def enumerateSlotStarts (start endTime duration : Nat) : List Nat :=
  slotLoop (endTime - start) start endTime duration

/-- The bookings query of the slot fetchers: advisor_id equal, status
equal to booked, scheduled_at between start and end of day (the day is
the 1440 minutes from dayStart). -/
def bookingsForDay (bookings : List Booking) (advisorId : String) (dayStart : Nat) :
    List Booking :=
  bookings.filter fun b =>
    b.advisorId == advisorId && b.status == "booked" &&
      decide (dayStart ≤ b.scheduledAt) && decide (b.scheduledAt ≤ dayStart + 1439)

/-- The advisor_availability query of the slot fetchers: advisor_id
equal, day_of_week equal, is_active true. -/
def activeRulesFor (rules : List AvailabilityRule) (advisorId dayOfWeek : String) :
    List AvailabilityRule :=
  rules.filter fun r =>
    r.advisorId == advisorId && r.dayOfWeek == dayOfWeek && r.isActive

/-- The isBooked check of the slot loops: some fetched booking has the
same HH:mm rendering of scheduled_at as the slot time. -/
def isBookedAt (fetched : List Booking) (slotTime : Nat) : Bool :=
  fetched.any fun b => hhmm b.scheduledAt == slotTime

/-- The slots pushed for one availability row: enumerate starts from
dayStart + start_time to dayStart + end_time and flag each with the
negated isBooked check. -/
def slotsForRule (fetched : List Booking) (dayStart duration : Nat)
    (r : AvailabilityRule) : List TimeSlot :=
  (enumerateSlotStarts (dayStart + r.startTime) (dayStart + r.endTime) duration).map
    fun c => { id := c, time := hhmm c, available := ! isBookedAt fetched (hhmm c) }

/-- The slot computation of fetchAvailableSlots (part_000) and
fetchAvailability (part_001): filter the rules and bookings as the two
queries do, then concatenate the per-rule slot lists in rule order. -/
def fetchAvailableSlots (rules : List AvailabilityRule) (bookings : List Booking)
    (advisorId dayOfWeek : String) (dayStart duration : Nat) : List TimeSlot :=
  (activeRulesFor rules advisorId dayOfWeek).flatMap
    (slotsForRule (bookingsForDay bookings advisorId dayStart) dayStart duration)

/-- Outcomes of handleBooking, one per exit of the source function. -/
inductive BookingOutcome where
  | noSlotSelected
  | redirectToLogin
  | bookingFailed
  | bookingConfirmed
deriving DecidableEq

/-- handleBooking of the supabase BookingModal (part_000): return if no
slot is selected; redirect to login if there is no session user;
otherwise insert one bookings row with the session user as customer,
status booked, at the selected instant.  insertFails models the insert
call reporting a storage error (the catch branch alerts failure).  The
function performs no availability validation and no conflict check. -/
def handleBooking (session : Option Session) (selectedSlot : Option Nat)
    (advisorId packageTitle : String) (ledger : List Booking) (insertFails : Bool) :
    List Booking × BookingOutcome :=
  match selectedSlot with
  | none => (ledger, .noSlotSelected)
  | some slot =>
    match session with
    | none => (ledger, .redirectToLogin)
    | some s =>
      if insertFails then (ledger, .bookingFailed)
      else
        (ledger ++ [{ customerId := s.userId, advisorId := advisorId,
                      packageId := packageTitle, scheduledAt := slot,
                      status := "booked" }], .bookingConfirmed)

/-- Modelled from the spec: the validation clause of the reservation
contract, slotStart falls within an active AvailabilityRule window
(start ≤ slotStart and slotStart + duration ≤ end).  The source has no
counterpart; this predicate only states the claimed check. -/
def specSlotWithinRuleWindow (r : AvailabilityRule) (slotStart duration : Nat) : Bool :=
  r.isActive && decide (r.startTime ≤ slotStart) &&
    decide (slotStart + duration ≤ r.endTime)

/-- Fuelled form of the calculateAvailableSlots loop of
GoogleCalendarService: hourly slots from current while current <
endTime, pushed only when no busy interval satisfies
busy.start < slotEnd and busy.end > current. -/
def calcLoop : Nat → Nat → Nat → List BusyInterval → List (Nat × Nat)
  | 0, _, _, _ => []
  | fuel + 1, current, endTime, busy =>
    if current < endTime then
      (if ! busy.any (fun b => decide (b.bstart < current + 60) &&
            decide (current < b.bend))
       then [(current, current + 60)] else []) ++
        calcLoop fuel (current + 60) endTime busy
    else []

/-- calculateAvailableSlots of GoogleCalendarService. -/
def calculateAvailableSlots (startTime endTime : Nat) (busy : List BusyInterval) :
    List (Nat × Nat) :=
  calcLoop (endTime - startTime) startTime endTime busy

/-- getAvailableSlots of GoogleCalendarService: the free/busy query may
fail (the awaited call throws); on failure the catch branch returns the
empty list, on success the hourly slots of the day [0, 1440) filtered
against the reported busy intervals. -/
def getAvailableSlots (freebusy : Except String (List BusyInterval)) :
    List (Nat × Nat) :=
  match freebusy with
  | .error _ => []
  | .ok busy => calculateAvailableSlots 0 1440 busy

/-- External writes performed by the calendar-backed BookingModal. -/
inductive ExternalAction where
  | calendarEventInsert
  | ledgerInsert
deriving DecidableEq

/-- Outcomes of the confirm onClick of the calendar-backed
BookingModal. -/
inductive ConfirmOutcome where
  | noSlotFound
  | successAlert
  | failureAlert
deriving DecidableEq

/-- The confirm onClick of the calendar-backed BookingModal
(BookingModal.tsx): find the selected slot (return if absent), call
createBooking (a calendar events insert, which rethrows on failure),
then close and alert success; the catch branch alerts failure.  The
first component is the list of external writes performed. -/
def confirmBooking (slot : Option (Nat × Nat)) (publishSucceeds : Bool) :
    List ExternalAction × ConfirmOutcome :=
  match slot with
  | none => ([], .noSlotFound)
  | some _ =>
    if publishSucceeds then ([.calendarEventInsert], .successAlert)
    else ([.calendarEventInsert], .failureAlert)

/-- Membership in the fuelled slot loop, for positive duration and
sufficient fuel: exactly the starts a, a + d, a + 2d, ... below b. -/
theorem mem_slotLoop {d : Nat} :
    ∀ (fuel a b s : Nat), b ≤ a + fuel * d →
      (s ∈ slotLoop fuel a b d ↔ ∃ i, s = a + i * d ∧ s < b) := by
  intro fuel
  induction fuel with
  | zero =>
    intro a b s hb
    simp only [Nat.zero_mul, Nat.add_zero] at hb
    simp only [slotLoop, List.not_mem_nil, false_iff]
    rintro ⟨i, rfl, hlt⟩
    exact absurd hlt (Nat.not_lt.mpr (hb.trans (Nat.le_add_right a (i * d))))
  | succ fuel ih =>
    intro a b s hb
    by_cases hab : a < b
    · have hb2 : b ≤ (a + d) + fuel * d := by
        rw [Nat.succ_mul] at hb
        linarith
      simp only [slotLoop, if_pos hab, List.mem_cons]
      rw [ih (a + d) b s hb2]
      constructor
      · rintro (rfl | ⟨i, rfl, hlt⟩)
        · exact ⟨0, by simp, hab⟩
        · exact ⟨i + 1, by ring, hlt⟩
      · rintro ⟨i, rfl, hlt⟩
        cases i with
        | zero => left; simp
        | succ j => right; exact ⟨j, by ring, hlt⟩
    · simp only [slotLoop, if_neg hab, List.not_mem_nil, false_iff]
      rintro ⟨i, rfl, hlt⟩
      have hba : b ≤ a := Nat.le_of_not_lt hab
      exact absurd hlt (Nat.not_lt.mpr (hba.trans (Nat.le_add_right a (i * d))))

/-- Claim C1: handleBooking inserts a booking at an instant outside
every availability window and reports success; it returns no validation
outcome and never consults the rules (they are not even an input). -/
theorem handleBooking_inserts_outside_window :
    handleBooking (some { userId := "u1" }) (some 1200) "a1" "pkg60" [] false
      = ([{ customerId := "u1", advisorId := "a1", packageId := "pkg60",
            scheduledAt := 1200, status := "booked" }], .bookingConfirmed)
    ∧ (([{ advisorId := "a1", dayOfWeek := "monday", startTime := 540,
           endTime := 720, isActive := true }] : List AvailabilityRule).any
         fun r => specSlotWithinRuleWindow r 1200 60) = false := by
  decide

/-- Claim C2: after one successful reservation of the 11:00 slot (660),
an immediately following second reservation of the same interval also
reports success and the ledger then holds two booked bookings
overlapping that interval, not one. -/
theorem handleBooking_double_booking :
    (handleBooking (some { userId := "u1" }) (some 660) "a1" "pkg" [] false).2
      = .bookingConfirmed
    ∧ (handleBooking (some { userId := "u2" }) (some 660) "a1" "pkg"
        (handleBooking (some { userId := "u1" }) (some 660) "a1" "pkg" [] false).1
        false).2 = .bookingConfirmed
    ∧ ((handleBooking (some { userId := "u2" }) (some 660) "a1" "pkg"
        (handleBooking (some { userId := "u1" }) (some 660) "a1" "pkg" [] false).1
        false).1.filter fun b =>
          b.advisorId == "a1" && b.status == "booked" &&
            overlaps b.scheduledAt 60 660 60).length = 2 := by
  decide

/-- Claim C3: a reserve call performs exactly one ledger operation (the
insert), so an interleaving of two reserve calls is one of the two
orders of the inserts; in either order both calls for the overlapping
intervals [540, 600) and [570, 630) report success and the final ledger
holds both overlapping booked bookings. -/
theorem concurrent_reserves_both_commit :
    (handleBooking (some { userId := "uB" }) (some 570) "a1" "pkg"
        (handleBooking (some { userId := "uA" }) (some 540) "a1" "pkg" [] false).1
        false)
      = ([{ customerId := "uA", advisorId := "a1", packageId := "pkg",
            scheduledAt := 540, status := "booked" },
          { customerId := "uB", advisorId := "a1", packageId := "pkg",
            scheduledAt := 570, status := "booked" }], .bookingConfirmed)
    ∧ (handleBooking (some { userId := "uA" }) (some 540) "a1" "pkg" [] false).2
      = .bookingConfirmed
    ∧ (handleBooking (some { userId := "uA" }) (some 540) "a1" "pkg"
        (handleBooking (some { userId := "uB" }) (some 570) "a1" "pkg" [] false).1
        false)
      = ([{ customerId := "uB", advisorId := "a1", packageId := "pkg",
            scheduledAt := 570, status := "booked" },
          { customerId := "uA", advisorId := "a1", packageId := "pkg",
            scheduledAt := 540, status := "booked" }], .bookingConfirmed)
    ∧ (handleBooking (some { userId := "uB" }) (some 570) "a1" "pkg" [] false).2
      = .bookingConfirmed
    ∧ overlaps 540 60 570 60 = true := by
  decide

/-- Claim C4 counterexample: the 09:00 to 10:00 window with duration 45
yields the two slots 09:00 and 09:45, not exactly one, and the 09:45
slot overruns the window end (585 + 45 > 600), so slots are not emitted
only while start + duration ≤ ruleEnd. -/
theorem slot_loop_emits_overrunning_slot :
    enumerateSlotStarts 540 600 45 = [540, 585]
    ∧ decide (585 + 45 ≤ 600) = false
    ∧ (enumerateSlotStarts 540 600 45).length = 2 := by
  decide

/-- Claim C4 (amended): for positive duration the generator enumerates
the starts ruleStart, ruleStart + duration, ... and emits a slot while
start < ruleEnd (the last slot may overrun the window end); the 09:00
to 10:00 window yields exactly one slot for duration 60 and the two
slots 09:00 and 09:45 for duration 45. -/
theorem enumerateSlotStarts_mem_iff :
    (∀ start endTime duration s, 0 < duration →
      (s ∈ enumerateSlotStarts start endTime duration ↔
        ∃ i, s = start + i * duration ∧ s < endTime))
    ∧ enumerateSlotStarts 540 600 60 = [540]
    ∧ enumerateSlotStarts 540 600 45 = [540, 585] := by
  refine ⟨?_, by decide, by decide⟩
  intro a b d s hd
  unfold enumerateSlotStarts
  apply mem_slotLoop
  have h1 : b - a ≤ (b - a) * d := Nat.le_mul_of_pos_right _ hd
  calc b ≤ a + (b - a) := by omega
    _ ≤ a + (b - a) * d := Nat.add_le_add_left h1 a

/-- Claim C4 witness: the amended enumeration applied at the concrete
window 540 to 600 with duration 45 and start 585. -/
theorem enumerateSlotStarts_mem_iff_witness :
    585 ∈ enumerateSlotStarts 540 600 45 :=
  (enumerateSlotStarts_mem_iff.1 540 600 45 585 (by decide)).2
    ⟨1, by decide, by decide⟩

/-- Claim C5 counterexample: a booked booking at 09:30 (570) overlaps
both generated slots of the 09:00 to 11:00 window with duration 60, yet
both slots are marked available, because the isBooked check compares
HH:mm start strings for equality instead of testing interval overlap. -/
theorem available_slot_overlaps_booked :
    fetchAvailableSlots
        [{ advisorId := "a1", dayOfWeek := "monday", startTime := 540,
           endTime := 660, isActive := true }]
        [{ customerId := "u9", advisorId := "a1", packageId := "pkgX",
           scheduledAt := 570, status := "booked" }]
        "a1" "monday" 0 60
      = [{ id := 540, time := 540, available := true },
         { id := 600, time := 600, available := true }]
    ∧ overlaps 540 60 570 60 = true := by
  decide

/-- Claim C5 (amended): a generated slot's available flag is false iff
some booking of the input ledger for that advisor, with status booked
and scheduled within the queried day, has the same HH:mm start time as
the slot; overlap of intervals plays no part in the flag. -/
theorem fetchAvailableSlots_available_iff :
    ∀ (rules : List AvailabilityRule) (bookings : List Booking)
      (advisorId dayOfWeek : String) (dayStart duration : Nat) (ts : TimeSlot),
      ts ∈ fetchAvailableSlots rules bookings advisorId dayOfWeek dayStart duration →
      (ts.available = false ↔
        ∃ b ∈ bookings, b.advisorId = advisorId ∧ b.status = "booked" ∧
          dayStart ≤ b.scheduledAt ∧ b.scheduledAt ≤ dayStart + 1439 ∧
          hhmm b.scheduledAt = ts.time) := by
  intro rules bookings advisorId dayOfWeek dayStart duration ts hts
  simp only [fetchAvailableSlots, List.mem_flatMap] at hts
  obtain ⟨r, _hr, hts⟩ := hts
  simp only [slotsForRule, List.mem_map] at hts
  obtain ⟨c, _hc, rfl⟩ := hts
  simp [isBookedAt, bookingsForDay, List.any_eq_true, List.mem_filter]
  tauto

/-- Claim C5 witness: the amended flag condition applied to the slot at
540 of a window holding one booked booking scheduled at 540. -/
theorem fetchAvailableSlots_available_iff_witness :
    (({ id := 540, time := 540, available := false } : TimeSlot).available = false ↔
      ∃ b ∈ [({ customerId := "u9", advisorId := "a1", packageId := "pkgX",
                scheduledAt := 540, status := "booked" } : Booking)],
        b.advisorId = "a1" ∧ b.status = "booked" ∧
          0 ≤ b.scheduledAt ∧ b.scheduledAt ≤ 0 + 1439 ∧
          hhmm b.scheduledAt =
            ({ id := 540, time := 540, available := false } : TimeSlot).time) :=
  fetchAvailableSlots_available_iff
    [{ advisorId := "a1", dayOfWeek := "monday", startTime := 540,
       endTime := 660, isActive := true }]
    [{ customerId := "u9", advisorId := "a1", packageId := "pkgX",
       scheduledAt := 540, status := "booked" }]
    "a1" "monday" 0 60 { id := 540, time := 540, available := false } (by decide)

/-- Claim C6 counterexample: when the free/busy query fails,
getAvailableSlots returns the empty list, which is not the ledger-only
slot list (the busy-free day has 24 hourly slots); no degraded flag
exists in the return value. -/
theorem getAvailableSlots_silent_empty :
    getAvailableSlots (Except.error "timeout") = []
    ∧ (getAvailableSlots (Except.ok [])).length = 24 := by
  decide

/-- Claim C6 (amended): on any busy-source failure getAvailableSlots
catches the error and returns the empty slot list, a silent empty
result rather than the non-empty busy-free slot list with a degraded
flag. -/
theorem getAvailableSlots_error_empty :
    (∀ e, getAvailableSlots (Except.error e) = [])
    ∧ getAvailableSlots (Except.ok []) = calculateAvailableSlots 0 1440 []
    ∧ (calculateAvailableSlots 0 1440 []).length = 24 :=
  ⟨fun _ => rfl, rfl, by decide⟩

/-- Claim C7 counterexample: the confirm handler performs the calendar
event insert as its only external write, with no ledger commit before
it, and a publish failure is surfaced as the booking-failure alert. -/
theorem publish_without_ledger_commit :
    (confirmBooking (some (540, 600)) true).1 = [ExternalAction.calendarEventInsert]
    ∧ (confirmBooking (some (540, 600)) true).1.contains ExternalAction.ledgerInsert
        = false
    ∧ (confirmBooking (some (540, 600)) false).2 = ConfirmOutcome.failureAlert := by
  decide

/-- Claim C7 (amended): the calendar-backed confirm path never writes
to the ledger at all; when a slot is selected its only write is the
calendar event insert, whose failure produces the booking-failure
alert, and there is no committed ledger booking to roll back. -/
theorem confirmBooking_no_ledger_write :
    ∀ (slot : Option (Nat × Nat)) (publishSucceeds : Bool),
      (confirmBooking slot publishSucceeds).1.contains ExternalAction.ledgerInsert
        = false
      ∧ (confirmBooking none publishSucceeds).2 = ConfirmOutcome.noSlotFound
      ∧ ∀ s, (confirmBooking (some s) publishSucceeds).1
            = [ExternalAction.calendarEventInsert]
          ∧ (confirmBooking (some s) publishSucceeds).2
            = (if publishSucceeds then ConfirmOutcome.successAlert
               else ConfirmOutcome.failureAlert) := by
  intro slot pub
  refine ⟨?_, rfl, fun s => ⟨?_, ?_⟩⟩
  · cases slot <;> cases pub <;> rfl
  · cases pub <;> rfl
  · cases pub <;> rfl

/-- The fuelled calendar loop equals the hourly enumeration filtered by
the busy-overlap test. -/
theorem calcLoop_eq_filter (busy : List BusyInterval) :
    ∀ (fuel a b : Nat),
      calcLoop fuel a b busy
        = ((slotLoop fuel a b 60).map fun c => (c, c + 60)).filter
            fun p => ! busy.any fun bi =>
              decide (bi.bstart < p.2) && decide (p.1 < bi.bend) := by
  intro fuel
  induction fuel with
  | zero => intro a b; rfl
  | succ fuel ih =>
    intro a b
    by_cases hab : a < b
    · simp only [calcLoop, slotLoop, if_pos hab, List.map_cons, List.filter_cons]
      rw [ih]
      cases h : (! busy.any fun bi =>
          decide (bi.bstart < a + 60) && decide (a < bi.bend)) <;> simp [h]
    · simp [calcLoop, slotLoop, if_neg hab]

/-- Claim C8: calculateAvailableSlots is the hourly slot enumeration
with busy-overlapping slots omitted entirely (so the result length
varies with the busy data), and consequently no returned slot overlaps
any reported busy interval. -/
theorem calculateAvailableSlots_omits_busy :
    (∀ startTime endTime busy,
      calculateAvailableSlots startTime endTime busy
        = ((enumerateSlotStarts startTime endTime 60).map fun c => (c, c + 60)).filter
            fun p => ! busy.any fun bi =>
              decide (bi.bstart < p.2) && decide (p.1 < bi.bend))
    ∧ ∀ startTime endTime busy p,
        p ∈ calculateAvailableSlots startTime endTime busy →
        ∀ bi ∈ busy, ¬(bi.bstart < p.2 ∧ p.1 < bi.bend) := by
  constructor
  · intro s e busy
    exact calcLoop_eq_filter busy (e - s) s e
  · intro s e busy p hp bi hbi
    rw [show calculateAvailableSlots s e busy = calcLoop (e - s) s e busy from rfl,
      calcLoop_eq_filter busy (e - s) s e, List.mem_filter] at hp
    have hpred := hp.2
    simp only [Bool.not_eq_true', List.any_eq_false, Bool.and_eq_true,
      decide_eq_true_eq, not_and] at hpred
    rintro ⟨h1, h2⟩
    exact hpred bi hbi h1 h2

/-- Claim C8 witness: the no-overlap conclusion applied to the slot
(0, 60) of a day holding one busy interval from 60 to 90. -/
theorem calculateAvailableSlots_omits_busy_witness :
    ¬((60 : Nat) < 60 ∧ (0 : Nat) < 90) :=
  calculateAvailableSlots_omits_busy.2 0 120 [{ bstart := 60, bend := 90 }]
    (0, 60) (by decide) { bstart := 60, bend := 90 } (by decide)

/-- Claim C9: with no session user, handleBooking leaves the ledger
unchanged; with a session user, every booking of the resulting ledger
either was already present or carries the session user id as customer
and status booked. -/
theorem handleBooking_session_guard :
    ∀ (slot : Option Nat) (advisorId packageTitle : String)
      (ledger : List Booking) (insertFails : Bool) (s : Session),
      (handleBooking none slot advisorId packageTitle ledger insertFails).1 = ledger
      ∧ ∀ b ∈ (handleBooking (some s) slot advisorId packageTitle ledger insertFails).1,
          b ∈ ledger ∨ (b.customerId = s.userId ∧ b.status = "booked") := by
  intro slot aid pkg ledger err s
  constructor
  · cases slot <;> rfl
  · intro b hb
    cases slot with
    | none => exact Or.inl hb
    | some c =>
      cases err with
      | true => exact Or.inl hb
      | false =>
        simp only [handleBooking, Bool.false_eq_true, if_false,
          List.mem_append, List.mem_singleton] at hb
        rcases hb with hb | hb
        · exact Or.inl hb
        · exact Or.inr (by rw [hb]; exact ⟨rfl, rfl⟩)

/-- Claim C9 witness: the insertion property applied to a concrete
booking made on an empty ledger by the session user u1. -/
theorem handleBooking_session_guard_witness :
    ({ customerId := "u1", advisorId := "a1", packageId := "p1",
       scheduledAt := 540, status := "booked" } : Booking) ∈ ([] : List Booking)
    ∨ (({ customerId := "u1", advisorId := "a1", packageId := "p1",
          scheduledAt := 540, status := "booked" } : Booking).customerId = "u1"
        ∧ ({ customerId := "u1", advisorId := "a1", packageId := "p1",
             scheduledAt := 540, status := "booked" } : Booking).status = "booked") :=
  (handleBooking_session_guard (some 540) "a1" "p1" [] false { userId := "u1" }).2
    { customerId := "u1", advisorId := "a1", packageId := "p1",
      scheduledAt := 540, status := "booked" } (by decide)

/-- Claim C10: getAvailableSlots is a total function of the free/busy
outcome; when the query fails it returns the empty slot list rather
than propagating the error. -/
theorem getAvailableSlots_catches_error :
    ∀ e : String, getAvailableSlots (Except.error e) = [] :=
  fun _ => rfl

end AdvisorConnect
